import Mathlib

set_option maxHeartbeats 1000000

/-!
Shallow embedding of the chat API route of the Adalytix repository
(`src/unnamed/part_000`): the intent classifier `mapMessageToQuery`, the
chart projector `transformToChartData`, the summarizer
`createResponseMessage`, and the response-producing parts of the `POST`
handler (the statement-completion callback and the outer catch handler).

JavaScript scalars are modelled by `JsValue`; a JS number is an
`Option ℚ` where `none` stands for `NaN` (every aggregate and comparison
the route performs is exact on the non-`NaN` doubles it meets, so `ℚ`
is a faithful carrier for them). A row is an insertion-ordered list of
key/value pairs, matching a JS object with its key order; an absent
property reads as `none` (JS `undefined`).
-/

/-- A JavaScript scalar value: string, number (`none` = `NaN`), boolean
or `null`. -/
inductive JsValue where
  | vstr (s : String)
  | vnum (q : Option ℚ)
  | vbool (b : Bool)
  | vnull
deriving DecidableEq, Repr

/-- A result row: an insertion-ordered object from column name to scalar. -/
abbrev Row := List (String × JsValue)

/-- Property read `row[key]`; `none` models JS `undefined`. -/
def rowLookup (row : Row) (key : String) : Option JsValue :=
  row.lookup key

/-- `Object.keys(row)` in insertion order. -/
def rowKeys (row : Row) : List String :=
  row.map Prod.fst

/-- JS truthiness of a possibly-`undefined` value: `undefined`, `null`,
`false`, `0`, `NaN` and `""` are falsy, everything else truthy. -/
def truthy : Option JsValue → Bool
  | none => false
  | some JsValue.vnull => false
  | some (JsValue.vbool b) => b
  | some (JsValue.vnum none) => false
  | some (JsValue.vnum (some q)) => !(q == 0)
  | some (JsValue.vstr s) => !(s == "")

/-- JS `a || b` on a possibly-`undefined` left operand. -/
def jsOrVal (a : Option JsValue) (b : JsValue) : JsValue :=
  if truthy a then a.getD b else b

/-- Decimal digit run parser used by the `Number(...)` model. -/
def digitsVal : List Char → Option (Nat × Nat)
  | [] => none
  | c :: rest =>
    if c.isDigit then
      match digitsVal rest with
      | none => if rest.isEmpty then some (c.toNat - 48, 1) else none
      | some (v, n) => some ((c.toNat - 48) * 10 ^ n + v, n + 1)
    else none

/-- Unsigned decimal literal `digits`, `digits.digits`, `.digits` or
`digits.` as a rational. -/
def parseUnsigned (cs : List Char) : Option ℚ :=
  match cs.splitOn '.' with
  | [w] => (digitsVal w).map (fun p => (p.1 : ℚ))
  | [[], f] => (digitsVal f).map (fun p => (p.1 : ℚ) / 10 ^ p.2)
  | [w, []] => (digitsVal w).map (fun p => (p.1 : ℚ))
  | [w, f] =>
    match digitsVal w, digitsVal f with
    | some pw, some pf => some ((pw.1 : ℚ) + (pf.1 : ℚ) / 10 ^ pf.2)
    | _, _ => none
  | _ => none

/-- Whitespace trimming on the character list (JS `Number` ignores
leading and trailing whitespace). -/
def trimChars (cs : List Char) : List Char :=
  ((cs.dropWhile Char.isWhitespace).reverse.dropWhile Char.isWhitespace).reverse

/-- Model of JS `Number(string)`: trimmed empty string is `0`, an
optionally signed decimal literal is its value, anything else is `NaN`
(`none`). (Hex/exponent/`Infinity` forms are not exercised by the data
this route handles.) -/
def parseJsNumber (s : String) : Option ℚ :=
  let t := trimChars s.data
  match t with
  | [] => some 0
  | '-' :: rest => (parseUnsigned rest).map (fun q => -q)
  | '+' :: rest => parseUnsigned rest
  | _ => parseUnsigned t

/-- JS `Number(v)` coercion on a defined value; `none` is `NaN`. -/
def toNumber : JsValue → Option ℚ
  | JsValue.vnum q => q
  | JsValue.vbool b => some (if b then 1 else 0)
  | JsValue.vnull => some 0
  | JsValue.vstr s => parseJsNumber s

/-- JS `Number(v)` where `v` may be `undefined` (`Number(undefined)` is
`NaN`). -/
def toNumberU : Option JsValue → Option ℚ
  | none => none
  | some v => toNumber v

/-- Rendering of a rational for string interpolation. The route's
claims never depend on the digit format of a number, only on string
values, so integer rationals render as their integer and other
rationals via `ℚ`'s own rendering. -/
def numToString (q : ℚ) : String :=
  if q.den = 1 then toString q.num else toString q

/-- JS `String(v)` / template coercion of a defined scalar. -/
def jsValToString : JsValue → String
  | JsValue.vstr s => s
  | JsValue.vnum none => "NaN"
  | JsValue.vnum (some q) => numToString q
  | JsValue.vbool b => if b then "true" else "false"
  | JsValue.vnull => "null"

/-- Case folding used for `message.toLowerCase()`: `String.map` over
`Char.toLower`, expressed on the character list so it computes by
`decide`. -/
def jsToLower (s : String) : String :=
  ⟨s.data.map Char.toLower⟩

/-- Substring test at the character-list level. -/
def charsContain (needle : List Char) : List Char → Bool
  | [] => needle.isEmpty
  | c :: rest => List.isPrefixOf needle (c :: rest) || charsContain needle rest

/-- JS `hay.includes(needle)`. -/
def jsIncludes (hay needle : String) : Bool :=
  charsContain needle.toList hay.toList

/-! ## Intent classifier (`mapMessageToQuery`, part_000 lines 40–76) -/

def highRoiQuery : String :=
  "SELECT * FROM SNOWFLAKEHACKATHON.PUBLIC.MARKETING_CAMPAIGN WHERE roi > 50 ORDER BY roi DESC LIMIT 50;"

def conversionQuery : String :=
  "SELECT * FROM SNOWFLAKEHACKATHON.PUBLIC.MARKETING_CAMPAIGN ORDER BY conversion_rate DESC LIMIT 50;"

def lowCostQuery : String :=
  "SELECT * FROM SNOWFLAKEHACKATHON.PUBLIC.MARKETING_CAMPAIGN ORDER BY acquisition_cost ASC LIMIT 50;"

def socialMediaQuery : String :=
  "SELECT * FROM SNOWFLAKEHACKATHON.PUBLIC.MARKETING_CAMPAIGN WHERE channel_used = 'Social Media' LIMIT 100;"

def emailQuery : String :=
  "SELECT * FROM SNOWFLAKEHACKATHON.PUBLIC.MARKETING_CAMPAIGN WHERE channel_used = 'Email' LIMIT 100;"

def searchQuery : String :=
  "SELECT * FROM SNOWFLAKEHACKATHON.PUBLIC.MARKETING_CAMPAIGN WHERE channel_used = 'Search' LIMIT 100;"

def recentQuery : String :=
  "SELECT * FROM SNOWFLAKEHACKATHON.PUBLIC.MARKETING_CAMPAIGN ORDER BY date DESC LIMIT 50;"

def defaultQuery : String :=
  "SELECT * FROM SNOWFLAKEHACKATHON.PUBLIC.MARKETING_CAMPAIGN LIMIT 100;"

/-- The 8 compile-time SQL templates, rule 1 first, default last. -/
def queryTemplates : List String :=
  [highRoiQuery, conversionQuery, lowCostQuery, socialMediaQuery,
   emailQuery, searchQuery, recentQuery, defaultQuery]

/-- `mapMessageToQuery` (part_000 lines 40–76): lower-case the message,
test the keyword rules in order, first match wins, default last. -/
def mapMessageToQuery (message : String) : String :=
  let lowerMessage := jsToLower message
  if jsIncludes lowerMessage "high roi" || jsIncludes lowerMessage "best roi"
      || jsIncludes lowerMessage "top roi" then
    highRoiQuery
  else if jsIncludes lowerMessage "conversion"
      && (jsIncludes lowerMessage "high" || jsIncludes lowerMessage "best") then
    conversionQuery
  else if jsIncludes lowerMessage "cost"
      && (jsIncludes lowerMessage "low" || jsIncludes lowerMessage "cheap") then
    lowCostQuery
  else if jsIncludes lowerMessage "social media" then
    socialMediaQuery
  else if jsIncludes lowerMessage "email" then
    emailQuery
  else if jsIncludes lowerMessage "search" || jsIncludes lowerMessage "google" then
    searchQuery
  else if jsIncludes lowerMessage "recent" || jsIncludes lowerMessage "latest" then
    recentQuery
  else
    defaultQuery

/-! ## Chart projector (`transformToChartData`, part_000 lines 79–156) -/

inductive ChartType where
  | line
  | bar
  | pie
deriving DecidableEq, Repr

structure ChartDataPoint where
  x : String
  y : ℚ
  label : Option String
deriving DecidableEq, Repr

structure ChartData where
  type : ChartType
  data : List ChartDataPoint
  labels : Option (List String)
deriving DecidableEq, Repr

/-- `typeof v === 'number'` on a possibly-`undefined` value (`NaN`
also has type `number`). -/
def isNumberType : Option JsValue → Bool
  | some (JsValue.vnum _) => true
  | _ => false

/-- `row[key]?.toString() || 'Unknown'` (lines 146/148/154): optional
chaining turns `undefined`/`null` into `undefined`, and an empty
string is falsy, so all three give `'Unknown'`. -/
def xLabel (v : Option JsValue) : String :=
  match v with
  | none => "Unknown"
  | some JsValue.vnull => "Unknown"
  | some w =>
    let s := jsValToString w
    if s == "" then "Unknown" else s

/-- One step of the `reduce` on line 106
(`acc[channel] = (acc[channel] || 0) + 1`): bump the unique entry for
`k` in place, appending a new entry (JS insertion order) when absent. -/
def incrCount : List (String × Nat) → String → List (String × Nat)
  | [], k => [(k, 1)]
  | p :: rest, k =>
    if p.1 == k then (p.1, p.2 + 1) :: rest else p :: incrCount rest k

/-- `row.channel_used || 'Unknown'` coerced to an object key (line 107). -/
def channelKey (row : Row) : String :=
  jsValToString (jsOrVal (rowLookup row "channel_used") (JsValue.vstr "Unknown"))

/-- The `channelCounts` accumulator of lines 106–110, in insertion
order. -/
def channelCounts (rows : List Row) : List (String × Nat) :=
  rows.foldl (fun acc row => incrCount acc (channelKey row)) []

/-- The pie payload built on lines 112–122: one point per distinct
channel, `y` the count, `labels = Object.keys(channelCounts)`. -/
def pieChartData (rows : List Row) : ChartData :=
  { type := ChartType.pie,
    data := (channelCounts rows).map (fun p =>
      { x := p.1, y := (p.2 : ℚ), label := some p.1 }),
    labels := some ((channelCounts rows).map Prod.fst) }

/-- `keys.filter(key => typeof firstRow[key] === 'number')` followed by
taking the head (lines 128–130). -/
def firstNumericKey (firstRow : Row) : Option String :=
  ((rowKeys firstRow).filter (fun key => isNumberType (rowLookup firstRow key))).head?

/-- x-axis choice of lines 137–140: `campaign_type` when present, else
the first key whose lower-cased name contains `"date"` (any such key
is non-empty hence truthy), else `campaign_id`. -/
def chooseXAxisKey (keys : List String) : String :=
  if keys.contains "campaign_type" then "campaign_type"
  else
    match keys.find? (fun k => jsIncludes (jsToLower k) "date") with
    | some k => k
    | none => "campaign_id"

/-- One mapped point of lines 145–149:
`{x: row[x]?.toString() || 'Unknown', y: Number(row[y]) || 0, label: …}`. -/
def barPoint (row : Row) (xAxisKey yAxisKey : String) : ChartDataPoint :=
  { x := xLabel (rowLookup row xAxisKey),
    y := (toNumberU (rowLookup row yAxisKey)).getD 0,
    label := some (xLabel (rowLookup row xAxisKey)) }

/-- Lines 125–155: the code after the keyword chain for every non-pie
branch, given the keyword-chosen y-column `yKey`. -/
def finishBar (rows : List Row) (firstRow : Row) (yKey : String) : Option ChartData :=
  let keys := rowKeys firstRow
  let yChosen : Option String :=
    if keys.contains yKey then some yKey else firstNumericKey firstRow
  match yChosen with
  | none => none
  | some yAxisKey =>
    let xAxisKey := chooseXAxisKey keys
    let limitedRows := rows.take 20
    some
      { type := ChartType.bar,
        data := limitedRows.map (fun row => barPoint row xAxisKey yAxisKey),
        labels := some (limitedRows.map (fun row => xLabel (rowLookup row xAxisKey))) }

/-- `transformToChartData` (lines 79–156). The `else if` chain sets the
y-column and falls into the shared tail, except the `channel` arm,
which returns the pie payload directly; the default keeps `roi`. -/
def transformToChartData (rows : List Row) (userMessage : String) : Option ChartData :=
  match rows with
  | [] => none
  | firstRow :: _ =>
    let lowerMessage := jsToLower userMessage
    if jsIncludes lowerMessage "roi" then finishBar rows firstRow "roi"
    else if jsIncludes lowerMessage "conversion" then finishBar rows firstRow "conversion_rate"
    else if jsIncludes lowerMessage "cost" then finishBar rows firstRow "acquisition_cost"
    else if jsIncludes lowerMessage "engagement" then finishBar rows firstRow "engagement_score"
    else if jsIncludes lowerMessage "channel" then some (pieChartData rows)
    else finishBar rows firstRow "roi"

/-- The y-column selected by the keyword chain of lines 92–104 for
every non-channel message: `roi`, `conversion_rate`,
`acquisition_cost`, `engagement_score`, or the `roi` default; `none`
on the channel arm, which skips the y-column logic. -/
def chosenYKey (lowerMessage : String) : Option String :=
  if jsIncludes lowerMessage "roi" then some "roi"
  else if jsIncludes lowerMessage "conversion" then some "conversion_rate"
  else if jsIncludes lowerMessage "cost" then some "acquisition_cost"
  else if jsIncludes lowerMessage "engagement" then some "engagement_score"
  else if jsIncludes lowerMessage "channel" then none
  else some "roi"

/-! ## Result summarizer (`createResponseMessage`, part_000 lines 158–234) -/

/-- `Number(r[key] || 0)` — the coercion applied to one row's cell in
every aggregate (lines 177, 187, 196, 205): a falsy cell (absent,
`null`, `0`, `NaN`, `""`, `false`) is first replaced by `0`, then the
result is coerced; `none` is `NaN`. -/
def coerceField (r : Row) (key : String) : Option ℚ :=
  toNumber (jsOrVal (rowLookup r key) (JsValue.vnum (some 0)))

/-- `rows.map(r => Number(r[key] || 0)).filter(v => !isNaN(v))`: the
aggregate input list; only `NaN` results are dropped. -/
def fieldValues (rows : List Row) (key : String) : List ℚ :=
  (rows.map (fun r => coerceField r key)).filterMap id

/-- `values.reduce((a, b) => a + b, 0) / values.length` (used only on
non-empty lists by the guards). -/
def avgQ (l : List ℚ) : ℚ :=
  l.sum / l.length

/-- `Math.max(...values)` on the non-empty lists the guards allow. -/
def maxQ : List ℚ → ℚ
  | [] => 0
  | x :: xs => xs.foldl max x

/-- `Math.min(...values)` on the non-empty lists the guards allow. -/
def minQ : List ℚ → ℚ
  | [] => 0
  | x :: xs => xs.foldl min x

/-- Two-digit zero padding for the fraction part of `toFixed(2)`. -/
def pad2 (n : Nat) : String :=
  if n < 10 then "0" ++ toString n else toString n

/-- Model of `x.toFixed(2)`: the value rounded to hundredths printed
with exactly two decimals. -/
def toFixed2 (q : ℚ) : String :=
  let n : ℤ := round (q * 100)
  (if n < 0 then "-" else "") ++ toString (n.natAbs / 100) ++ "." ++ pad2 (n.natAbs % 100)

/-- `x.toFixed(2)` where `x` may be `NaN` (prints `"NaN"`). -/
def toFixed2N : Option ℚ → String
  | none => "NaN"
  | some q => toFixed2 q

/-- Template rendering of a possibly-`undefined` value (an absent value
prints as `"undefined"`). -/
def jsDisplay : Option JsValue → String
  | none => "undefined"
  | some v => jsValToString v

/-- Stable insertion step: `x` goes after every `y` with `le y x`. -/
def insertLe (le : α → α → Bool) (x : α) : List α → List α
  | [] => [x]
  | y :: ys => if le y x then y :: insertLe le x ys else x :: y :: ys

/-- Stable sort modelling `Array.prototype.sort(comparator)` (stable per
the JS spec), with `le a b` meaning "`comparator(a,b) ≤ 0` or the
comparator result is `NaN`, i.e. `a` need not move after `b`". -/
def jsSort (le : α → α → Bool) (l : List α) : List α :=
  l.foldl (fun acc x => insertLe le x acc) []

/-- The fixed sentence returned for an empty row set (line 162). -/
def noDataMessage : String :=
  "I couldn't find any data matching your query. Please try a different question."

/-- Lines 172–174: the `how many` / `count` block; `some` models the
early `return`, `none` the fall-through. -/
def howManyBranch (rows : List Row) (lowerMessage : String) : Option String :=
  if jsIncludes lowerMessage "how many" || jsIncludes lowerMessage "count" then
    some ("I found " ++ toString rows.length
      ++ " marketing campaigns in the database. The chart below shows the distribution of the data.")
  else none

/-- Lines 176–184: the ROI aggregate block. -/
def roiBranch (rows : List Row) (lowerMessage : String) : Option String :=
  if jsIncludes lowerMessage "roi" || jsIncludes lowerMessage "return on investment" then
    let roiValues := fieldValues rows "roi"
    if roiValues.length > 0 then
      some ("Based on " ++ toString rows.length
        ++ " campaigns:\n• Average ROI: " ++ toFixed2 (avgQ roiValues)
        ++ "%\n• Highest ROI: " ++ toFixed2 (maxQ roiValues)
        ++ "%\n• Lowest ROI: " ++ toFixed2 (minQ roiValues)
        ++ "%\n\nThe chart below visualizes the ROI trends.")
    else none
  else none

/-- Lines 186–193: the conversion-rate aggregate block. -/
def conversionBranch (rows : List Row) (lowerMessage : String) : Option String :=
  if jsIncludes lowerMessage "conversion" || jsIncludes lowerMessage "conversion rate" then
    let conversionRates := fieldValues rows "conversion_rate"
    if conversionRates.length > 0 then
      some ("Conversion rate analysis from " ++ toString rows.length
        ++ " campaigns:\n• Average conversion rate: " ++ toFixed2 (avgQ conversionRates)
        ++ "%\n• Best performing: " ++ toFixed2 (maxQ conversionRates)
        ++ "%\n\nSee the chart below for detailed trends.")
    else none
  else none

/-- Lines 195–202: the acquisition-cost aggregate block. -/
def costBranch (rows : List Row) (lowerMessage : String) : Option String :=
  if jsIncludes lowerMessage "cost" || jsIncludes lowerMessage "acquisition cost" then
    let costs := fieldValues rows "acquisition_cost"
    if costs.length > 0 then
      some ("Cost analysis from " ++ toString rows.length
        ++ " campaigns:\n• Average acquisition cost: $" ++ toFixed2 (avgQ costs)
        ++ "\n• Total cost: $" ++ toFixed2 costs.sum
        ++ "\n\nThe chart shows cost distribution across campaigns.")
    else none
  else none

/-- Lines 204–210: the engagement aggregate block. -/
def engagementBranch (rows : List Row) (lowerMessage : String) : Option String :=
  if jsIncludes lowerMessage "engagement" then
    let engagementScores := fieldValues rows "engagement_score"
    if engagementScores.length > 0 then
      some ("Engagement analysis from " ++ toString rows.length
        ++ " campaigns:\n• Average engagement score: " ++ toFixed2 (avgQ engagementScores)
        ++ "\n\nThe chart below shows engagement patterns.")
    else none
  else none

/-- Lines 213–217: truthy `channel_used` cells counted by frequency, in
first-encounter order, keys coerced to strings. -/
def summaryChannelCounts (rows : List Row) : List (String × Nat) :=
  ((rows.map (fun r => rowLookup r "channel_used")).filter truthy).foldl
    (fun acc v => incrCount acc (jsValToString (v.getD JsValue.vnull))) []

/-- Line 218: `Object.entries(channelCounts).sort((a, b) => b[1] - a[1])`
— stable descending sort by count. -/
def sortedChannelEntries (rows : List Row) : List (String × Nat) :=
  jsSort (fun a b => decide (b.2 ≤ a.2)) (summaryChannelCounts rows)

/-- Lines 212–222: the channel / platform block; an empty entry list
makes `topChannel` undefined (falsy) and falls through. -/
def channelBranch (rows : List Row) (lowerMessage : String) : Option String :=
  if jsIncludes lowerMessage "channel" || jsIncludes lowerMessage "platform" then
    match sortedChannelEntries rows with
    | [] => none
    | top :: _ =>
      some ("Channel analysis from " ++ toString rows.length
        ++ " campaigns:\n• Most used channel: " ++ top.1
        ++ " (" ++ toString top.2
        ++ " campaigns)\n• Total channels: " ++ toString (summaryChannelCounts rows).length
        ++ "\n\nThe chart shows channel distribution.")
  else none

/-- One element of line 225:
`{roi: Number(r.roi || 0), campaign: r.campaign_type || r.campaign_id}`. -/
structure CampaignRoi where
  roi : Option ℚ
  campaign : Option JsValue
deriving DecidableEq, Repr

/-- JS `a || b` when both operands may be `undefined`. -/
def jsOrOpt (a b : Option JsValue) : Option JsValue :=
  if truthy a then a else b

def campaignRois (rows : List Row) : List CampaignRoi :=
  rows.map (fun r =>
    { roi := coerceField r "roi",
      campaign := jsOrOpt (rowLookup r "campaign_type") (rowLookup r "campaign_id") })

/-- Comparator `(a, b) => b.roi - a.roi` of line 226 as a "may precede"
test: `a` precedes `b` unless `a.roi < b.roi`; a `NaN` comparator value
counts as a tie (neither `< 0` nor `> 0`), keeping the stable order. -/
def roiDescLe (a b : CampaignRoi) : Bool :=
  match a.roi, b.roi with
  | some x, some y => decide (y ≤ x)
  | _, _ => true

def sortedCampaigns (rows : List Row) : List CampaignRoi :=
  jsSort roiDescLe (campaignRois rows)

/-- Lines 224–230: the best / top / highest block; `topCampaign` is an
object hence truthy whenever the list is non-empty. -/
def bestBranch (rows : List Row) (lowerMessage : String) : Option String :=
  if jsIncludes lowerMessage "best" || jsIncludes lowerMessage "top"
      || jsIncludes lowerMessage "highest" then
    match sortedCampaigns rows with
    | [] => none
    | top :: _ =>
      some ("Top performing campaign:\n• Campaign: " ++ jsDisplay top.campaign
        ++ "\n• ROI: " ++ toFixed2N top.roi
        ++ "%\n\nAnalyzed " ++ toString rows.length
        ++ " campaigns. See the chart for comparison.")
  else none

/-- Line 233: the default response. -/
def defaultResponse (rows : List Row) : String :=
  "I analyzed " ++ toString rows.length
    ++ " marketing campaigns. The data includes metrics like ROI, conversion rates, costs, and engagement scores. The chart below visualizes key trends. Try asking specific questions like:\n• \"What's the average ROI?\"\n• \"Which channel performs best?\"\n• \"Show me conversion rates\""

/-- `createResponseMessage` (lines 158–234): the empty-row sentence,
then the early-return blocks in source order, then the default. -/
def createResponseMessage (rows : List Row) (userMessage : String) : String :=
  if rows.length = 0 then noDataMessage
  else
    let lowerMessage := jsToLower userMessage
    ((((((howManyBranch rows lowerMessage
      <|> roiBranch rows lowerMessage)
      <|> conversionBranch rows lowerMessage)
      <|> costBranch rows lowerMessage)
      <|> engagementBranch rows lowerMessage)
      <|> channelBranch rows lowerMessage)
      <|> bestBranch rows lowerMessage).getD (defaultResponse rows)

/-! ## Chat endpoint responses (`POST`, part_000 lines 236–393) -/

/-- The `ChatResponse` wire shape. `chartData` and `error` are optional
properties: a `none` field is absent from the serialized JSON
(`NextResponse.json` / `JSON.stringify` drop `undefined` properties and
the success literal of lines 363–366 has no `error` property at all),
while `message` is a required string, always present. -/
structure ChatResponse where
  message : String
  chartData : Option ChartData
  error : Option String
deriving DecidableEq, Repr

/-- A serialized HTTP reply: body plus status code
(`NextResponse.json(body, {status})`, default status 200). -/
structure HttpResponse where
  resp : ChatResponse
  status : Nat
deriving DecidableEq, Repr

/-- Lines 247–253: malformed JSON body. -/
def invalidRequestResponse : HttpResponse :=
  ⟨⟨"", none, some "Invalid request format. Please send a valid JSON body with a message field."⟩, 400⟩

/-- Lines 259–265: missing `message` field. -/
def noMessageResponse : HttpResponse :=
  ⟨⟨"", none, some "No message provided. Please include a message in your request."⟩, 400⟩

/-- Lines 281–287: missing credentials. -/
def missingCredentialsResponse : HttpResponse :=
  ⟨⟨"", none, some "Missing Snowflake credentials. Please check your .env.local file."⟩, 500⟩

/-- Lines 308–314: connect failure. -/
def connectFailureResponse : HttpResponse :=
  ⟨⟨"", none, some "Failed to connect to Snowflake. Please check your credentials and try again."⟩, 500⟩

/-- Lines 343–349: statement execution failure. -/
def queryFailureResponse : HttpResponse :=
  ⟨⟨"", none, some "Query execution failed. Please try rephrasing your question."⟩, 500⟩

/-- Lines 353–368: the success reply — `rows || []`, then the
summarizer and the chart projection; the object literal has no `error`
property. -/
def successResponse (rows : Option (List Row)) (userMessage : String) : HttpResponse :=
  let snowflakeRows := rows.getD []
  ⟨{ message := createResponseMessage snowflakeRows userMessage,
     chartData := transformToChartData snowflakeRows userMessage,
     error := none }, 200⟩

/-- Observable actions of the statement-completion callback, in program
order (`console.log` calls carry no client-visible effect and are not
recorded). -/
inductive Event where
  | destroyConnection : Event
  | resolveResponse (r : HttpResponse) : Event
deriving DecidableEq, Repr

/-- The trace of the `complete` callback (lines 327–369): the
connection is destroyed first ("Always destroy connection after
query"), then exactly one branch resolves the response promise. The
inner destroy callback only logs. -/
def completeCallback (err : Option String) (rows : Option (List Row))
    (userMessage : String) : List Event :=
  Event.destroyConnection ::
    (match err with
     | some _ => [Event.resolveResponse queryFailureResponse]
     | none => [Event.resolveResponse (successResponse rows userMessage)])

/-- A JS thrown value: either an `Error` instance carrying a diagnostic
`message`, or any other value. -/
inductive ThrownValue where
  | errorInstance (message : String) : ThrownValue
  | nonError (v : JsValue) : ThrownValue
deriving DecidableEq, Repr

/-- Fallback text of line 377. -/
def genericFailureText : String :=
  "An unexpected error occurred. Please try again."

/-- The outer `catch` of lines 373–391: the generic text, overwritten
by `error.message` whenever the thrown value is an `Error` instance. -/
def catchHandler (error : ThrownValue) : HttpResponse :=
  let errorMessage :=
    match error with
    | ThrownValue.errorInstance m => m
    | ThrownValue.nonError _ => genericFailureText
  ⟨⟨"", none, some errorMessage⟩, 500⟩

/-! ## Concrete inputs used by counterexamples and witnesses -/

/-- 21 rows, each with a distinct `channel_used` value. -/
def manyChannelRows : List Row :=
  (List.range 21).map (fun i => [("channel_used", JsValue.vstr ("c" ++ toString i))])

def campaignRowA : Row :=
  [("campaign_type", JsValue.vstr "A"), ("roi", JsValue.vnum (some 3))]

def barChartA : ChartData :=
  { type := ChartType.bar,
    data := [{ x := "A", y := 3, label := some "A" }],
    labels := some ["A"] }

def roiRow100 : Row := [("roi", JsValue.vnum (some 100))]

/-- A row whose `roi` cell fails numeric coercion (`Number("abc")` is `NaN`). -/
def roiRowNonNumeric : Row := [("roi", JsValue.vstr "abc")]

def emailRow : Row := [("channel_used", JsValue.vstr "Email")]

def aNumericRow : Row := [("a", JsValue.vnum (some 7))]

def aStringRow : Row := [("a", JsValue.vstr "x")]

/-- Two-row set whose only column `a` is numeric in the first row but
not across the whole row set. -/
def mixedColumnRows : List Row := [aNumericRow, aStringRow]

/-- A first row with a string column followed by two numeric columns:
the fallback must pick `m1`, the first numeric one. -/
def multiColumnRow : Row :=
  [("name", JsValue.vstr "x"), ("m1", JsValue.vnum (some 4)), ("m2", JsValue.vnum (some 9))]

def diagnosticText : String := "connect ECONNRESET (snowflake driver internal detail)"

/-- `true` exactly on resolution events. -/
def isResolveEvent : Event → Bool
  | Event.resolveResponse _ => true
  | Event.destroyConnection => false

/-- The count recorded for key `k` in an accumulator (0 when absent);
reads the first entry, like a JS property access. -/
def lookupCount : List (String × Nat) → String → Nat
  | [], _ => 0
  | p :: rest, k => if p.1 == k then p.2 else lookupCount rest k

/-! ## Helper lemmas -/

theorem append_ne_empty (a b : String) (h : a.data ≠ []) : a ++ b ≠ "" := by
  intro hab
  apply h
  have hd := congrArg String.data hab
  rw [String.data_append] at hd
  exact (List.append_eq_nil.mp hd).1

theorem orElse_some_ne (a b : Option String)
    (ha : ∀ s, a = some s → s ≠ "") (hb : ∀ s, b = some s → s ≠ "") :
    ∀ s, (a <|> b) = some s → s ≠ "" := by
  intro s hs
  cases a with
  | some v => rw [Option.some_orElse] at hs; exact ha s hs
  | none => rw [Option.none_orElse] at hs; exact hb s hs

theorem getD_ne_empty (o : Option String) (d : String)
    (ho : ∀ s, o = some s → s ≠ "") (hd : d ≠ "") : o.getD d ≠ "" := by
  cases o with
  | some v => exact ho v rfl
  | none => exact hd

theorem ne_empty_of_data (s : String) (h : s.data ≠ []) : s ≠ "" := by
  intro hs
  exact h (congrArg String.data hs)

theorem append_data_ne (a b : String) (h : a.data ≠ []) : (a ++ b).data ≠ [] := by
  rw [String.data_append]
  intro hab
  exact h (List.append_eq_nil.mp hab).1

theorem howManyBranch_ne (rows : List Row) (lm : String) :
    ∀ s, howManyBranch rows lm = some s → s ≠ "" := by
  intro s hs
  unfold howManyBranch at hs
  split at hs
  · injection hs with h
    subst h
    apply ne_empty_of_data
    repeat apply append_data_ne
    decide
  · cases hs

theorem roiBranch_ne (rows : List Row) (lm : String) :
    ∀ s, roiBranch rows lm = some s → s ≠ "" := by
  intro s hs
  unfold roiBranch at hs
  dsimp only at hs
  split at hs
  · split at hs
    · injection hs with h
      subst h
      apply ne_empty_of_data
      repeat apply append_data_ne
      decide
    · cases hs
  · cases hs

theorem conversionBranch_ne (rows : List Row) (lm : String) :
    ∀ s, conversionBranch rows lm = some s → s ≠ "" := by
  intro s hs
  unfold conversionBranch at hs
  dsimp only at hs
  split at hs
  · split at hs
    · injection hs with h
      subst h
      apply ne_empty_of_data
      repeat apply append_data_ne
      decide
    · cases hs
  · cases hs

theorem costBranch_ne (rows : List Row) (lm : String) :
    ∀ s, costBranch rows lm = some s → s ≠ "" := by
  intro s hs
  unfold costBranch at hs
  dsimp only at hs
  split at hs
  · split at hs
    · injection hs with h
      subst h
      apply ne_empty_of_data
      repeat apply append_data_ne
      decide
    · cases hs
  · cases hs

theorem engagementBranch_ne (rows : List Row) (lm : String) :
    ∀ s, engagementBranch rows lm = some s → s ≠ "" := by
  intro s hs
  unfold engagementBranch at hs
  dsimp only at hs
  split at hs
  · split at hs
    · injection hs with h
      subst h
      apply ne_empty_of_data
      repeat apply append_data_ne
      decide
    · cases hs
  · cases hs

theorem channelBranch_ne (rows : List Row) (lm : String) :
    ∀ s, channelBranch rows lm = some s → s ≠ "" := by
  intro s hs
  unfold channelBranch at hs
  split at hs
  · split at hs
    · cases hs
    · injection hs with h
      subst h
      apply ne_empty_of_data
      repeat apply append_data_ne
      decide
  · cases hs

theorem bestBranch_ne (rows : List Row) (lm : String) :
    ∀ s, bestBranch rows lm = some s → s ≠ "" := by
  intro s hs
  unfold bestBranch at hs
  split at hs
  · split at hs
    · cases hs
    · injection hs with h
      subst h
      apply ne_empty_of_data
      repeat apply append_data_ne
      decide
  · cases hs

theorem defaultResponse_ne (rows : List Row) : defaultResponse rows ≠ "" := by
  unfold defaultResponse
  apply ne_empty_of_data
  repeat apply append_data_ne
  decide

/-- Core totality/non-emptiness fact about the summarizer: every branch
(including the empty-row sentence) yields non-empty text. -/
theorem createResponseMessage_ne_empty :
    ∀ (rows : List Row) (msg : String), createResponseMessage rows msg ≠ "" := by
  intro rows msg
  unfold createResponseMessage
  split
  · decide
  · apply getD_ne_empty
    · apply orElse_some_ne
      · apply orElse_some_ne
        · apply orElse_some_ne
          · apply orElse_some_ne
            · apply orElse_some_ne
              · apply orElse_some_ne
                · exact howManyBranch_ne _ _
                · exact roiBranch_ne _ _
              · exact conversionBranch_ne _ _
            · exact costBranch_ne _ _
          · exact engagementBranch_ne _ _
        · exact channelBranch_ne _ _
      · exact bestBranch_ne _ _
    · exact defaultResponse_ne _

/-! ## Claim theorems -/

/-- C7: for every empty row set and every message, the summarizer
returns exactly the fixed no-data sentence and the chart projection
returns none. -/
theorem C7_empty_rows_no_data :
    ∀ msg : String,
      createResponseMessage [] msg =
        "I couldn't find any data matching your query. Please try a different question."
      ∧ transformToChartData [] msg = none := by
  intro msg
  exact ⟨rfl, rfl⟩

/-- C4: the intent classifier is deterministic and total — every input
string maps to one of the 8 fixed compile-time SQL literals (so no part
of the message is interpolated into the SQL), with the rules tested in
priority order: the tie message "high roi and low cost" matches rule 1
(high ROI), not rule 3 (low cost). -/
theorem C4_classifier_total_fixed_queries :
    (∀ m : String, mapMessageToQuery m ∈ queryTemplates)
    ∧ mapMessageToQuery "high roi and low cost" = highRoiQuery := by
  constructor
  · intro m
    unfold mapMessageToQuery
    dsimp only
    split_ifs <;> simp [queryTemplates]
  · decide

/-- C3: for every outcome of statement execution, the completion
callback's trace starts with the connection-destroy action, contains
exactly one response resolution, and is precisely destroy-then-resolve
— so the connection is released before the response is produced on both
the success and the failure branch. -/
theorem C3_destroy_precedes_resolve :
    ∀ (err : Option String) (rows : Option (List Row)) (msg : String),
      (completeCallback err rows msg).head? = some Event.destroyConnection
      ∧ ((completeCallback err rows msg).filter isResolveEvent).length = 1
      ∧ ∃ r, completeCallback err rows msg
          = [Event.destroyConnection, Event.resolveResponse r] := by
  intro err rows msg
  cases err with
  | none => exact ⟨rfl, rfl, successResponse rows msg, rfl⟩
  | some e => exact ⟨rfl, rfl, queryFailureResponse, rfl⟩

/-- C6: the outer catch of the chat endpoint answers HTTP 500, but when
the thrown value is an `Error` instance its diagnostic `message` text is
copied verbatim into the client-visible `error` string instead of the
generic message — evaluated here at a driver-style diagnostic. -/
theorem C6_catch_returns_driver_message :
    (catchHandler (ThrownValue.errorInstance diagnosticText)).status = 500
    ∧ (catchHandler (ThrownValue.errorInstance diagnosticText)).resp.error = some diagnosticText
    ∧ diagnosticText ≠ genericFailureText := by
  exact ⟨rfl, rfl, by decide⟩

/-- C8: for every non-empty row set and every message, the summarizer
(modelled as a total function, as every JS operation it performs is
non-throwing) returns non-empty text. -/
theorem C8_summarizer_nonempty :
    ∀ (rows : List Row) (msg : String), rows ≠ [] →
      createResponseMessage rows msg ≠ "" :=
  fun rows msg _ => createResponseMessage_ne_empty rows msg

/-- C8 witness: the theorem applied at a concrete non-empty row set. -/
theorem C8_summarizer_nonempty_witness :
    createResponseMessage [roiRow100] "best roi" ≠ "" :=
  C8_summarizer_nonempty [roiRow100] "best roi" (by decide)

/-- C10 counterexample: the success reply of the chat endpoint carries
no `error` property at all (`error = none`, absent from the serialized
shape), so "both fields are always present" fails on the success
branch. -/
theorem C10_success_omits_error_field :
    (successResponse (some [roiRow100]) "roi").resp.error = none
    ∧ (successResponse (some [roiRow100]) "roi").status = 200 :=
  ⟨rfl, rfl⟩

/-- C10 amended: every failure reply carries both fields, with `message`
empty and `error` populated; the success reply carries a non-empty
`message` and the `error` field is absent (`none`) rather than present. -/
theorem C10_exactly_one_populated :
    (∀ hr ∈ [invalidRequestResponse, noMessageResponse, missingCredentialsResponse,
             connectFailureResponse, queryFailureResponse],
       hr.resp.message = "" ∧ hr.resp.error.isSome = true)
    ∧ (∀ e, (catchHandler e).resp.message = "" ∧ (catchHandler e).resp.error.isSome = true)
    ∧ (∀ (rows : Option (List Row)) (msg : String),
         (successResponse rows msg).resp.error = none
         ∧ (successResponse rows msg).resp.message ≠ "") := by
  refine ⟨by decide, ?_, ?_⟩
  · intro e
    cases e <;> exact ⟨rfl, rfl⟩
  · intro rows msg
    exact ⟨rfl, createResponseMessage_ne_empty _ _⟩

/-- C10 witness: the amended theorem applied to the malformed-body
reply. -/
theorem C10_exactly_one_populated_witness :
    invalidRequestResponse.resp.message = ""
    ∧ invalidRequestResponse.resp.error.isSome = true :=
  C10_exactly_one_populated.1 invalidRequestResponse (by decide)

/-- C2 counterexample: a row with no `roi` key is coerced to `0` by
`Number(r.roi || 0)` and kept in the aggregate, so adding it moves the
reported ROI average from 100 to 50. -/
theorem C2_absent_key_counted_as_zero :
    fieldValues [roiRow100, []] "roi" = [100, 0]
    ∧ avgQ (fieldValues [roiRow100, []] "roi") = 50
    ∧ avgQ (fieldValues [roiRow100] "roi") = 100 := by
  have h1 : fieldValues [roiRow100, []] "roi" = [100, 0] := by decide
  have h2 : fieldValues [roiRow100] "roi" = [100] := by decide
  refine ⟨h1, ?_, ?_⟩
  · rw [h1]
    norm_num [avgQ]
  · rw [h2]
    norm_num [avgQ]

/-- C2 amended: a cell whose coercion yields `NaN` is excluded from the
aggregate, but an absent key is first defaulted to `0` by `|| 0`, is
coerced to `0`, and is included in the aggregate as a zero. -/
theorem C2_nan_excluded_absent_zero :
    ∀ (rows : List Row) (key : String) (r : Row),
      (coerceField r key = none → fieldValues (r :: rows) key = fieldValues rows key)
      ∧ (rowLookup r key = none →
           coerceField r key = some 0
           ∧ fieldValues (r :: rows) key = 0 :: fieldValues rows key) := by
  intro rows key r
  constructor
  · intro h
    simp [fieldValues, List.filterMap_cons, h]
  · intro h
    have hc : coerceField r key = some 0 := by
      simp [coerceField, jsOrVal, truthy, h, toNumber]
    exact ⟨hc, by simp [fieldValues, List.filterMap_cons, hc]⟩

/-- C2 witness: the amended theorem applied to a non-numeric cell
(excluded) and to an absent key (kept as zero). -/
theorem C2_nan_excluded_absent_zero_witness :
    (fieldValues [roiRowNonNumeric] "roi" = fieldValues [] "roi")
    ∧ (coerceField ([] : Row) "roi" = some 0
        ∧ fieldValues [([] : Row)] "roi" = 0 :: fieldValues [] "roi") :=
  ⟨(C2_nan_excluded_absent_zero [] "roi" roiRowNonNumeric).1 (by decide),
   (C2_nan_excluded_absent_zero [] "roi" []).2 (by decide)⟩

theorem finishBar_shape (rows : List Row) (fr : Row) (yKey : String) (cd : ChartData)
    (h : finishBar rows fr yKey = some cd) :
    cd.type = ChartType.bar
    ∧ cd.labels.map List.length = some cd.data.length
    ∧ cd.data.length ≤ 20 := by
  unfold finishBar at h
  dsimp only at h
  split at h
  · cases h
  · injection h with h
    subst h
    refine ⟨rfl, ?_, ?_⟩
    · simp
    · simp [List.length_take]

theorem pieChartData_shape (rows : List Row) :
    (pieChartData rows).type = ChartType.pie
    ∧ (pieChartData rows).labels.map List.length = some (pieChartData rows).data.length := by
  refine ⟨rfl, ?_⟩
  simp [pieChartData]

/-- C1 counterexample: with 21 rows carrying 21 distinct channels and a
message mentioning "channel", the pie branch emits 21 points — more
than 20. -/
theorem C1_pie_exceeds_twenty :
    ((transformToChartData manyChannelRows "channel").map (fun cd => cd.data.length)) = some 21
    ∧ ((transformToChartData manyChannelRows "channel").map (fun cd => cd.type)) = some ChartType.pie
    ∧ ¬(21 ≤ 20) := by
  refine ⟨by decide, by decide, by decide⟩

/-- C1 amended: every chart payload has `labels` present with
`labels.length = points.length`, and every non-pie payload has at most
20 points; the pie branch alone is unbounded (one point per distinct
channel). -/
theorem C1_points_bounded_labels_match :
    ∀ (rows : List Row) (msg : String) (cd : ChartData),
      transformToChartData rows msg = some cd →
      cd.labels.map List.length = some cd.data.length
      ∧ (cd.type = ChartType.pie ∨ cd.data.length ≤ 20) := by
  intro rows msg cd h
  unfold transformToChartData at h
  cases rows with
  | nil => cases h
  | cons fr rest =>
    dsimp only at h
    have haux : ∀ yk : String, finishBar (fr :: rest) fr yk = some cd →
        cd.labels.map List.length = some cd.data.length
        ∧ (cd.type = ChartType.pie ∨ cd.data.length ≤ 20) := by
      intro yk hh
      obtain ⟨_, hl, hle⟩ := finishBar_shape _ _ _ _ hh
      exact ⟨hl, Or.inr hle⟩
    split_ifs at h
    · exact haux _ h
    · exact haux _ h
    · exact haux _ h
    · exact haux _ h
    · injection h with h
      subst h
      exact ⟨(pieChartData_shape _).2, Or.inl (pieChartData_shape _).1⟩
    · exact haux _ h

/-- C1 witness: the amended theorem applied to a one-row bar chart. -/
theorem C1_points_bounded_labels_match_witness :
    barChartA.labels.map List.length = some barChartA.data.length
    ∧ (barChartA.type = ChartType.pie ∨ barChartA.data.length ≤ 20) :=
  C1_points_bounded_labels_match [campaignRowA] "roi" barChartA (by decide)

theorem firstNumericKey_eq_none_iff (fr : Row) :
    firstNumericKey fr = none ↔ ∀ k ∈ rowKeys fr, isNumberType (rowLookup fr k) = false := by
  simp [firstNumericKey, List.head?_eq_none_iff, List.filter_eq_nil_iff]

/-- C9 counterexample: the only column `a` is numeric in the first row
but not across the whole row set, so the claim requires `none`; the
code inspects the first row only and still returns a chart. -/
theorem C9_fallback_ignores_later_rows :
    (transformToChartData mixedColumnRows "zzz").isSome = true
    ∧ rowKeys aNumericRow = ["a"]
    ∧ ¬(∀ r ∈ mixedColumnRows, isNumberType (rowLookup r "a") = true) := by
  refine ⟨by decide, by decide, by decide⟩

theorem head_filter_eq_some_iff (p : String → Bool) :
    ∀ (l : List String) (k : String),
      (l.filter p).head? = some k ↔
        ∃ pre post, l = pre ++ k :: post
          ∧ (∀ x ∈ pre, p x = false) ∧ p k = true := by
  intro l
  induction l with
  | nil => intro k; simp
  | cons a t ih =>
    intro k
    cases pa : p a with
    | true =>
      simp only [List.filter_cons, pa, if_true, List.head?_cons, Option.some_inj]
      constructor
      · rintro rfl
        exact ⟨[], t, rfl, by simp, pa⟩
      · rintro ⟨pre, post, heq, hpre, hk⟩
        cases pre with
        | nil =>
          exact (List.cons.injEq .. ▸ heq).1.symm ▸ rfl
        | cons b pre2 =>
          have hb := (List.cons.injEq .. ▸ heq).1
          have : p a = false := hb ▸ hpre b (by simp)
          rw [pa] at this
          cases this
    | false =>
      simp only [List.filter_cons, pa]
      rw [if_neg Bool.false_ne_true, ih k]
      constructor
      · rintro ⟨pre, post, heq, hpre, hk⟩
        refine ⟨a :: pre, post, by rw [heq, List.cons_append], ?_, hk⟩
        intro x hx
        rcases List.mem_cons.mp hx with hx | hx
        · exact hx ▸ pa
        · exact hpre x hx
      · rintro ⟨pre, post, heq, hpre, hk⟩
        cases pre with
        | nil =>
          have ha := (List.cons.injEq .. ▸ heq).1
          rw [← ha] at hk
          rw [pa] at hk
          cases hk
        | cons b pre2 =>
          obtain ⟨_, ht⟩ := List.cons.injEq .. ▸ heq
          exact ⟨pre2, post, ht, fun x hx => hpre x (List.mem_cons_of_mem _ hx), hk⟩

/-- `firstNumericKey` really is the FIRST key of the first row whose
value has JS type number: every key before it fails the test. -/
theorem firstNumericKey_eq_some_iff (fr : Row) (k : String) :
    firstNumericKey fr = some k ↔
      ∃ pre post, rowKeys fr = pre ++ k :: post
        ∧ (∀ k2 ∈ pre, isNumberType (rowLookup fr k2) = false)
        ∧ isNumberType (rowLookup fr k) = true := by
  unfold firstNumericKey
  exact head_filter_eq_some_iff _ (rowKeys fr) k

/-- On a non-empty row set, every non-channel message routes the
projection into the shared bar tail with the keyword-chosen y-column. -/
theorem transform_uses_chosenYKey (msg : String) (fr : Row) (rest : List Row)
    (yKey : String) (hy : chosenYKey (jsToLower msg) = some yKey) :
    transformToChartData (fr :: rest) msg = finishBar (fr :: rest) fr yKey := by
  unfold chosenYKey at hy
  unfold transformToChartData
  dsimp only
  split_ifs at hy ⊢ <;> injection hy with hy <;> subst hy <;> rfl

/-- C9 amended: for every keyword-chosen y-column (roi, conversion,
cost, engagement or the roi default — any non-channel message) that is
absent from the row schema, the projection returns `none` exactly when
no column of the FIRST ROW holds a value of JS type number; otherwise
it builds the bar chart over the first such first-row-numeric column
(all keys before it are non-numeric in the first row); values in later
rows are never inspected. -/
theorem C9_fallback_first_row_numeric (msg : String) (fr : Row) (rest : List Row)
    (yKey : String)
    (hy : chosenYKey (jsToLower msg) = some yKey)
    (habs : (rowKeys fr).contains yKey = false) :
    ((transformToChartData (fr :: rest) msg = none) ↔
       ∀ k ∈ rowKeys fr, isNumberType (rowLookup fr k) = false)
    ∧ (∀ k, firstNumericKey fr = some k →
        (∃ pre post, rowKeys fr = pre ++ k :: post
           ∧ (∀ k2 ∈ pre, isNumberType (rowLookup fr k2) = false)
           ∧ isNumberType (rowLookup fr k) = true)
        ∧ transformToChartData (fr :: rest) msg
            = some { type := ChartType.bar,
                     data := ((fr :: rest).take 20).map
                       (fun row => barPoint row (chooseXAxisKey (rowKeys fr)) k),
                     labels := some (((fr :: rest).take 20).map
                       (fun row => xLabel (rowLookup row (chooseXAxisKey (rowKeys fr))))) }) := by
  rw [transform_uses_chosenYKey msg fr rest yKey hy]
  unfold finishBar
  dsimp only
  rw [if_neg (show ¬((rowKeys fr).contains yKey = true) by rw [habs]; simp)]
  constructor
  · cases hfn : firstNumericKey fr with
    | none =>
      have hall := (firstNumericKey_eq_none_iff fr).mp hfn
      simp only [hfn]
      exact iff_of_true (by trivial) hall
    | some k =>
      simp only [hfn]
      constructor
      · intro hnone
        simp at hnone
      · intro hall
        have h2 := (firstNumericKey_eq_none_iff fr).mpr hall
        rw [hfn] at h2
        exact Option.noConfusion h2
  · intro k hk
    refine ⟨(firstNumericKey_eq_some_iff fr k).mp hk, ?_⟩
    simp only [hk]

/-- C9 witness: the amended theorem at a message choosing
`conversion_rate` and a first row with a string column followed by two
numeric columns, so the fallback must skip `name` and pick `m1`. -/
theorem C9_fallback_first_row_numeric_witness :
    ((transformToChartData [multiColumnRow] "high conversion" = none) ↔
       ∀ k ∈ rowKeys multiColumnRow, isNumberType (rowLookup multiColumnRow k) = false)
    ∧ (∀ k, firstNumericKey multiColumnRow = some k →
        (∃ pre post, rowKeys multiColumnRow = pre ++ k :: post
           ∧ (∀ k2 ∈ pre, isNumberType (rowLookup multiColumnRow k2) = false)
           ∧ isNumberType (rowLookup multiColumnRow k) = true)
        ∧ transformToChartData [multiColumnRow] "high conversion"
            = some { type := ChartType.bar,
                     data := (([multiColumnRow] : List Row).take 20).map
                       (fun row => barPoint row (chooseXAxisKey (rowKeys multiColumnRow)) k),
                     labels := some ((([multiColumnRow] : List Row).take 20).map
                       (fun row => xLabel (rowLookup row (chooseXAxisKey (rowKeys multiColumnRow))))) }) :=
  C9_fallback_first_row_numeric "high conversion" multiColumnRow [] "conversion_rate"
    (by decide) (by decide)

theorem lookupCount_incrCount (acc : List (String × Nat)) (k k0 : String) :
    lookupCount (incrCount acc k) k0
      = lookupCount acc k0 + (if k0 = k then 1 else 0) := by
  induction acc with
  | nil =>
    by_cases h : k0 = k
    · subst h
      simp [incrCount, lookupCount]
    · simp [incrCount, lookupCount, Ne.symm h, h]
  | cons p rest ih =>
    by_cases hpk : p.1 = k
    · simp only [incrCount, hpk, beq_self_eq_true, if_true]
      by_cases hp0 : k = k0
      · subst hp0
        simp [lookupCount, hpk]
      · have hk0 : ¬k0 = k := fun h => hp0 h.symm
        have hpk0 : ¬p.1 = k0 := fun h => hp0 (hpk.symm.trans h)
        simp [lookupCount, hpk0, hk0, hp0]
    · simp only [incrCount, beq_iff_eq, hpk, if_false]
      by_cases hp0 : p.1 = k0
      · have hk0 : ¬k0 = k := fun h => hpk (hp0.trans h)
        simp [lookupCount, hp0, hk0]
      · simp only [lookupCount, beq_iff_eq, hp0, if_false]
        exact ih

theorem keys_incrCount (acc : List (String × Nat)) (k : String) :
    (incrCount acc k).map Prod.fst
      = if acc.any (fun p => p.1 == k) then acc.map Prod.fst
        else acc.map Prod.fst ++ [k] := by
  induction acc with
  | nil => simp [incrCount]
  | cons p rest ih =>
    by_cases hpk : p.1 = k
    · simp [incrCount, hpk]
    · simp only [incrCount, beq_iff_eq, hpk, if_false, List.map_cons, ih,
        List.any_cons]
      rw [show (p.1 == k) = false by simp [hpk], Bool.false_or]
      split
      · rfl
      · simp

theorem nodup_keys_incrCount (acc : List (String × Nat)) (k : String)
    (h : (acc.map Prod.fst).Nodup) : ((incrCount acc k).map Prod.fst).Nodup := by
  rw [keys_incrCount]
  split
  · exact h
  · rename_i hany
    have hk : k ∉ acc.map Prod.fst := by
      intro hmem
      obtain ⟨p, hp, hpk⟩ := List.mem_map.mp hmem
      exact hany (List.any_eq_true.mpr ⟨p, hp, by simp [hpk]⟩)
    simp [List.nodup_append, h, hk]

theorem lookupCount_ne_zero_mem (acc : List (String × Nat)) (k0 : String)
    (h : lookupCount acc k0 ≠ 0) : k0 ∈ acc.map Prod.fst := by
  induction acc with
  | nil => exact absurd rfl h
  | cons p rest ih =>
    by_cases hp0 : p.1 = k0
    · exact List.mem_map.mpr ⟨p, List.mem_cons_self .., hp0⟩
    · rw [List.map_cons]
      apply List.mem_cons_of_mem
      apply ih
      simpa [lookupCount, hp0] using h

theorem mem_entry_lookupCount (acc : List (String × Nat))
    (hnd : (acc.map Prod.fst).Nodup) :
    ∀ p ∈ acc, lookupCount acc p.1 = p.2 := by
  induction acc with
  | nil => simp
  | cons q rest ih =>
    intro p hp
    rcases List.mem_cons.mp hp with hp | hp
    · subst hp
      simp [lookupCount]
    · have hq : ¬q.1 = p.1 := by
        intro he
        have : q.1 ∈ rest.map Prod.fst := he ▸ List.mem_map.mpr ⟨p, hp, rfl⟩
        exact (List.nodup_cons.mp (by simpa using hnd)).1 this
      simp only [lookupCount, beq_iff_eq, hq, if_false]
      exact ih (List.nodup_cons.mp (by simpa using hnd)).2 p hp

theorem channelCounts_foldl (rows : List Row) :
    ∀ acc : List (String × Nat),
      (acc.map Prod.fst).Nodup →
      ((rows.foldl (fun acc row => incrCount acc (channelKey row)) acc).map Prod.fst).Nodup
      ∧ ∀ k0, lookupCount (rows.foldl (fun acc row => incrCount acc (channelKey row)) acc) k0
          = lookupCount acc k0 + rows.countP (fun r => channelKey r == k0) := by
  induction rows with
  | nil =>
    intro acc h
    exact ⟨h, fun k0 => by simp⟩
  | cons r rest ih =>
    intro acc h
    obtain ⟨hnd, hcount⟩ := ih (incrCount acc (channelKey r))
      (nodup_keys_incrCount acc (channelKey r) h)
    refine ⟨hnd, fun k0 => ?_⟩
    rw [List.foldl_cons, hcount k0, lookupCount_incrCount, List.countP_cons]
    by_cases hk : k0 = channelKey r
    · simp [hk]
      omega
    · have hk2 : ¬channelKey r = k0 := fun h => hk h.symm
      simp [hk, hk2]

theorem channelCounts_spec (rows : List Row) :
    ((channelCounts rows).map Prod.fst).Nodup
    ∧ ∀ k0, lookupCount (channelCounts rows) k0
        = rows.countP (fun r => channelKey r == k0) := by
  obtain ⟨hnd, hcount⟩ := channelCounts_foldl rows [] (by simp)
  exact ⟨hnd, fun k0 => by simpa [lookupCount] using hcount k0⟩

theorem channelCounts_entry (rows : List Row) :
    ∀ p ∈ channelCounts rows, p.2 = rows.countP (fun r => channelKey r == p.1) := by
  intro p hp
  obtain ⟨hnd, hcount⟩ := channelCounts_spec rows
  rw [← hcount p.1]
  exact (mem_entry_lookupCount (channelCounts rows) hnd p hp).symm

theorem channelKey_mem_counts (rows : List Row) :
    ∀ r ∈ rows, channelKey r ∈ (channelCounts rows).map Prod.fst := by
  intro r hr
  obtain ⟨_, hcount⟩ := channelCounts_spec rows
  apply lookupCount_ne_zero_mem
  rw [hcount]
  have : 0 < rows.countP (fun x => channelKey x == channelKey r) :=
    List.countP_pos_iff.mpr ⟨r, hr, by simp⟩
  omega

/-- C5 counterexample: the message "roi by channel" mentions "channel",
yet the projection takes the earlier `roi` arm of the else-if chain,
runs the y-column logic and (here) returns `none` — not a pie chart. -/
theorem C5_roi_beats_channel :
    jsIncludes (jsToLower "roi by channel") "channel" = true
    ∧ transformToChartData [emailRow] "roi by channel" = none :=
  ⟨by decide, by decide⟩

/-- C5 amended: when the message mentions "channel" and none of the
earlier keywords (roi/conversion/cost/engagement), the projection on a
non-empty row set is the pie payload: one point per distinct channel
(x-values distinct and covering every row's channel), `y` the count of
rows in that channel, label = channel, and absent `channel_used` maps
to "Unknown" (as does the falsy empty string). -/
theorem C5_channel_pie_grouping (msg : String) (fr : Row) (rest : List Row)
    (h1 : jsIncludes (jsToLower msg) "channel" = true)
    (h2 : jsIncludes (jsToLower msg) "roi" = false)
    (h3 : jsIncludes (jsToLower msg) "conversion" = false)
    (h4 : jsIncludes (jsToLower msg) "cost" = false)
    (h5 : jsIncludes (jsToLower msg) "engagement" = false) :
    transformToChartData (fr :: rest) msg = some (pieChartData (fr :: rest))
    ∧ (pieChartData (fr :: rest)).type = ChartType.pie
    ∧ ((pieChartData (fr :: rest)).data.map (fun p => p.x)).Nodup
    ∧ (∀ p ∈ (pieChartData (fr :: rest)).data,
        p.y = ((fr :: rest).countP (fun r => channelKey r == p.x) : ℚ)
        ∧ p.label = some p.x)
    ∧ (∀ r ∈ fr :: rest, channelKey r ∈ (pieChartData (fr :: rest)).data.map (fun p => p.x))
    ∧ (∀ r : Row, rowLookup r "channel_used" = none → channelKey r = "Unknown")
    ∧ (∀ r : Row, rowLookup r "channel_used" = some (JsValue.vstr "") → channelKey r = "Unknown") := by
  have hxs : (pieChartData (fr :: rest)).data.map (fun p => p.x)
      = (channelCounts (fr :: rest)).map Prod.fst := by
    simp [pieChartData, List.map_map, Function.comp]
  refine ⟨?_, rfl, ?_, ?_, ?_, ?_, ?_⟩
  · unfold transformToChartData
    dsimp only
    rw [if_neg (by simp [h2]), if_neg (by simp [h3]), if_neg (by simp [h4]),
      if_neg (by simp [h5]), if_pos h1]
  · rw [hxs]
    exact (channelCounts_spec _).1
  · intro p hp
    simp only [pieChartData] at hp
    obtain ⟨q, hq, rfl⟩ := List.mem_map.mp hp
    refine ⟨?_, rfl⟩
    show ((q.2 : ℚ)) = _
    rw [channelCounts_entry _ q hq]
  · intro r hr
    rw [hxs]
    exact channelKey_mem_counts _ r hr
  · intro r hr
    simp [channelKey, hr, jsOrVal, truthy, jsValToString]
  · intro r hr
    simp [channelKey, hr, jsOrVal, truthy, jsValToString]

/-- C5 witness: the amended theorem at a one-row set and the message
"channel". -/
theorem C5_channel_pie_grouping_witness :
    transformToChartData [emailRow] "channel" = some (pieChartData [emailRow])
    ∧ (pieChartData [emailRow]).type = ChartType.pie
    ∧ ((pieChartData [emailRow]).data.map (fun p => p.x)).Nodup
    ∧ (∀ p ∈ (pieChartData [emailRow]).data,
        p.y = (([emailRow] : List Row).countP (fun r => channelKey r == p.x) : ℚ)
        ∧ p.label = some p.x)
    ∧ (∀ r ∈ [emailRow], channelKey r ∈ (pieChartData [emailRow]).data.map (fun p => p.x))
    ∧ (∀ r : Row, rowLookup r "channel_used" = none → channelKey r = "Unknown")
    ∧ (∀ r : Row, rowLookup r "channel_used" = some (JsValue.vstr "") → channelKey r = "Unknown") :=
  C5_channel_pie_grouping "channel" emailRow []
    (by decide) (by decide) (by decide) (by decide) (by decide)
